import Mathlib

/-!
Verification of the local asset registry and deduplication layer of the
scryfall-mcp repository, shallowly embedded in Lean.

The SQLite-backed store (`src/db_manager.py`, class `CardDatabase`) keeps one
table `downloaded_cards` whose schema — as created by `_init_db` — is

  id INTEGER PRIMARY KEY AUTOINCREMENT,
  card_name TEXT NOT NULL,
  filename TEXT NOT NULL,
  download_date TIMESTAMP DEFAULT CURRENT_TIMESTAMP,
  card_id TEXT, set_code TEXT, image_url TEXT,
  file_id TEXT UNIQUE,
  UNIQUE(card_name)

The embedding keeps the rows as a list in rowid order (SQLite returns rows of
an un-ORDERed SELECT in rowid order, and `fetchone` yields the first).
`INSERT OR REPLACE` deletes every existing row that conflicts with the new row
on a UNIQUE constraint — same `card_name`, or same non-NULL `file_id` — and
then appends the new row with a fresh autoincrement id.  Timestamps are
modelled by a logical clock that ticks on every insert.  UUID generation
(`uuid.uuid4()`) is modelled by an explicit `gen` argument: the token the
generator would produce.
-/

/-- Row of the `downloaded_cards` table. -/
structure Row where
  rowId : Nat
  card_name : String
  filename : String
  card_id : Option String
  set_code : Option String
  image_url : Option String
  file_id : Option String
  download_date : Nat
deriving Repr, DecidableEq

/-- State of the store: rows in rowid order, the autoincrement counter and a
logical clock standing in for CURRENT_TIMESTAMP. -/
structure CardDatabase where
  rows : List Row
  nextId : Nat
  clock : Nat
deriving Repr, DecidableEq

/-- Fresh store, as `_init_db` leaves a new database. -/
def emptyDb : CardDatabase := { rows := [], nextId := 1, clock := 0 }

/-- Conflict of an existing row `s` with a row `r` being inserted, per the two
UNIQUE constraints of the table: `UNIQUE(card_name)` and `file_id TEXT UNIQUE`
(NULL `file_id`s never conflict in SQLite). -/
def conflicts (s r : Row) : Bool :=
  s.card_name == r.card_name ||
    match s.file_id, r.file_id with
    | some a, some b => a == b
    | _, _ => false

/-- Effect of `INSERT OR REPLACE`: drop every conflicting row, append the new
one with a fresh autoincrement id, tick the clock. -/
def CardDatabase.insertOrReplace (db : CardDatabase) (r : Row) : CardDatabase :=
  { rows := db.rows.filter (fun s => !conflicts s r) ++ [r],
    nextId := db.nextId + 1,
    clock := db.clock + 1 }

/-- Row built by `CardDatabase.add_card`: the effective `file_id` is the
explicit one when supplied, else the freshly generated token `gen`. -/
def mkRow (db : CardDatabase) (cn fn : String) (ci sc iu : Option String)
    (fid : Option String) (gen : String) : Row :=
  { rowId := db.nextId, card_name := cn, filename := fn, card_id := ci,
    set_code := sc, image_url := iu, file_id := some (fid.getD gen),
    download_date := db.clock }

/-- `CardDatabase.add_card` (db_manager.py lines 124-151): generate a
`file_id` when none is passed, `INSERT OR REPLACE` the row, return the new
state together with the effective `file_id`. -/
def CardDatabase.add_card (db : CardDatabase) (cn fn : String)
    (ci sc iu : Option String) (fid : Option String) (gen : String) :
    CardDatabase × String :=
  (db.insertOrReplace (mkRow db cn fn ci sc iu fid gen), fid.getD gen)

/-- `CardDatabase.card_exists` (lines 108-122): SELECT 1 WHERE card_name = ?,
true iff a row matches. -/
def CardDatabase.card_exists (db : CardDatabase) (cn : String) : Bool :=
  db.rows.any (fun r => r.card_name == cn)

/-- `CardDatabase.get_card_info` (lines 153-167): first row (in rowid order)
with the given `card_name`, or none. -/
def CardDatabase.get_card_info (db : CardDatabase) (cn : String) : Option Row :=
  db.rows.find? (fun r => r.card_name == cn)

/-- `CardDatabase.remove_card` (lines 179-192): DELETE WHERE card_name = ?,
returning whether any row was removed (`rowcount > 0`). -/
def CardDatabase.remove_card (db : CardDatabase) (cn : String) :
    CardDatabase × Bool :=
  let remaining := db.rows.filter (fun r => !(r.card_name == cn))
  ({ db with rows := remaining }, remaining.length != db.rows.length)

/-- `CardDatabase.get_card_by_file_id` (lines 194-208). -/
def CardDatabase.get_card_by_file_id (db : CardDatabase) (fid : String) :
    Option Row :=
  db.rows.find? (fun r => r.file_id == some fid)

/-- `CardDatabase.get_file_path_by_id` (lines 210-225). -/
def CardDatabase.get_file_path_by_id (db : CardDatabase) (fid : String) :
    Option String :=
  (db.get_card_by_file_id fid).map (fun r => r.filename)

/-- Convenience projection: the `file_id` of the record `get_card_info`
returns for a key, if any. -/
def CardDatabase.infoFileId (db : CardDatabase) (cn : String) : Option String :=
  (db.get_card_info cn).bind (fun r => r.file_id)

/-! ### Basic lemmas about `add_card` -/

theorem conflicts_of_same_name {s r : Row} (h : s.card_name = r.card_name) :
    conflicts s r = true := by
  simp [conflicts, h]

theorem name_ne_of_not_conflicts {s r : Row} (h : conflicts s r = false) :
    s.card_name ≠ r.card_name := by
  intro he
  rw [conflicts_of_same_name he] at h
  simp at h

theorem fileId_ne_of_not_conflicts {s r : Row} (h : conflicts s r = false)
    {b : String} (hr : r.file_id = some b) : s.file_id ≠ some b := by
  intro hs
  unfold conflicts at h
  rw [hs, hr] at h
  simp at h

theorem add_card_rows (db : CardDatabase) (cn fn : String)
    (ci sc iu : Option String) (fid : Option String) (gen : String) :
    ((db.add_card cn fn ci sc iu fid gen).1).rows =
      db.rows.filter (fun s => !conflicts s (mkRow db cn fn ci sc iu fid gen))
        ++ [mkRow db cn fn ci sc iu fid gen] := rfl

/-- Every row surviving the replace step has a `card_name` different from the
inserted key. -/
theorem mem_filter_name_ne {db : CardDatabase} {cn fn : String}
    {ci sc iu : Option String} {fid : Option String} {gen : String} {x : Row}
    (hx : x ∈ db.rows.filter
      (fun s => !conflicts s (mkRow db cn fn ci sc iu fid gen))) :
    x.card_name ≠ cn := by
  have h := (List.mem_filter.mp hx).2
  rw [Bool.not_eq_true'] at h
  exact name_ne_of_not_conflicts h

/-- Lookup after `add_card` finds exactly the freshly inserted row. -/
theorem get_card_info_add (db : CardDatabase) (cn fn : String)
    (ci sc iu : Option String) (fid : Option String) (gen : String) :
    ((db.add_card cn fn ci sc iu fid gen).1).get_card_info cn =
      some (mkRow db cn fn ci sc iu fid gen) := by
  unfold CardDatabase.get_card_info
  rw [add_card_rows, List.find?_append]
  have hnone : (db.rows.filter
      (fun s => !conflicts s (mkRow db cn fn ci sc iu fid gen))).find?
        (fun r => r.card_name == cn) = none := by
    rw [List.find?_eq_none]
    intro x hx
    simp only [beq_eq_false_iff_ne, ne_eq, Bool.not_eq_true]
    exact mem_filter_name_ne hx
  rw [hnone]
  simp [mkRow]

/-! ### Claim C1 -/

/-- C1: for every logical key `k`, file location `loc` and metadata, after
`put(k, loc, m)` (`CardDatabase.add_card`) returns, `exists(k)`
(`card_exists`) is true and `get_by_key(k)` (`get_card_info`) returns a record
whose `file_location` (`filename`) equals `loc`. -/
theorem add_card_then_exists_and_lookup (db : CardDatabase) (k loc : String)
    (ci sc iu : Option String) (fid : Option String) (gen : String) :
    ((db.add_card k loc ci sc iu fid gen).1).card_exists k = true ∧
    ∃ r, ((db.add_card k loc ci sc iu fid gen).1).get_card_info k = some r ∧
      r.filename = loc := by
  constructor
  · unfold CardDatabase.card_exists
    rw [add_card_rows]
    simp [mkRow]
  · exact ⟨mkRow db k loc ci sc iu fid gen,
      get_card_info_add db k loc ci sc iu fid gen, rfl⟩

/-! ### Claim C4 -/

/-- Helper: any single `add_card` on key `k` leaves exactly one row whose
`card_name` is `k` (the replace step removed every earlier one). -/
theorem add_card_count (db : CardDatabase) (k fn : String)
    (ci sc iu : Option String) (fid : Option String) (gen : String) :
    (((db.add_card k fn ci sc iu fid gen).1).rows.filter
      (fun r => r.card_name == k)).length = 1 := by
  rw [add_card_rows, List.filter_append]
  have h1 : (db.rows.filter
      (fun s => !conflicts s (mkRow db k fn ci sc iu fid gen))).filter
        (fun r => r.card_name == k) = [] := by
    rw [List.filter_eq_nil_iff]
    intro x hx
    simp only [beq_eq_false_iff_ne, ne_eq, Bool.not_eq_true]
    exact mem_filter_name_ne hx
  rw [h1]
  simp [mkRow]

/-- C4: `put` is idempotent on `file_location` convergence — calling
`add_card` twice with the same `card_name` leaves exactly one record for that
key, and that record carries the latest location and metadata. -/
theorem add_card_twice_single_record (db : CardDatabase) (k l1 l2 : String)
    (c1 s1 u1 c2 s2 u2 : Option String) (f1 f2 : Option String)
    (g1 g2 : String) :
    ((((db.add_card k l1 c1 s1 u1 f1 g1).1).add_card k l2 c2 s2 u2 f2 g2).1.rows.filter
        (fun r => r.card_name == k)).length = 1 ∧
    ∃ r, (((db.add_card k l1 c1 s1 u1 f1 g1).1).add_card k l2 c2 s2 u2 f2 g2).1.get_card_info k
        = some r ∧ r.filename = l2 ∧ r.card_id = c2 ∧ r.set_code = s2 ∧
        r.image_url = u2 := by
  refine ⟨add_card_count _ k l2 c2 s2 u2 f2 g2,
    ⟨mkRow _ k l2 c2 s2 u2 f2 g2,
      get_card_info_add _ k l2 c2 s2 u2 f2 g2, rfl, rfl, rfl, rfl⟩⟩

/-! ### Claim C2 -/

/-- Store after a first keyless put of "Lightning Bolt". -/
def c2db1 : CardDatabase :=
  (emptyDb.add_card "Lightning Bolt" "f1.jpg" none none none none "uuid-1").1

/-- Store after a second keyless put of the same card. -/
def c2db2 : CardDatabase :=
  (c2db1.add_card "Lightning Bolt" "f2.jpg" none none none none "uuid-2").1

/-- C2 counterexample: a later `add_card` on the same logical key that does
not pass an explicit `file_id` does NOT leave the record's `file_id`
unchanged — the record for "Lightning Bolt" had `file_id` "uuid-1" and after
the second keyless put it carries the freshly generated "uuid-2". -/
theorem add_card_regenerates_file_id_cex :
    c2db1.infoFileId "Lightning Bolt" = some "uuid-1" ∧
    c2db2.infoFileId "Lightning Bolt" = some "uuid-2" ∧
    c2db2.infoFileId "Lightning Bolt" ≠ c2db1.infoFileId "Lightning Bolt" := by
  refine ⟨rfl, rfl, by decide⟩

/-- C2 amended: a record's `external_id` (`file_id`) survives only as long as
the record itself is not overwritten — `add_card` on an existing key without
an explicit `file_id` replaces the record and stores the freshly generated
token as its `file_id`, while `add_card` with an explicit `file_id` stores
exactly that token. -/
theorem add_card_file_id_after_overwrite (db : CardDatabase) (k loc : String)
    (ci sc iu : Option String) (gen : String) :
    ((db.add_card k loc ci sc iu none gen).1).infoFileId k = some gen ∧
    ∀ fid, ((db.add_card k loc ci sc iu (some fid) gen).1).infoFileId k
      = some fid := by
  constructor
  · unfold CardDatabase.infoFileId
    rw [get_card_info_add]
    rfl
  · intro fid
    unfold CardDatabase.infoFileId
    rw [get_card_info_add]
    rfl

/-! ### Claim C9 -/

/-- Helper: the `rowcount > 0` result of the DELETE equals the existence check
on the pre-state. -/
theorem remove_ret_eq_any (l : List Row) (k : String) :
    ((l.filter (fun r => !(r.card_name == k))).length != l.length)
      = l.any (fun r => r.card_name == k) := by
  induction l with
  | nil => rfl
  | cons x xs ih =>
    by_cases h : (x.card_name == k) = true
    · have hf : (x :: xs).filter (fun r => !(r.card_name == k))
          = xs.filter (fun r => !(r.card_name == k)) := by
        simp [List.filter_cons, h]
      have hlt : (xs.filter (fun r => !(r.card_name == k))).length
          < xs.length + 1 :=
        Nat.lt_succ_of_le (List.length_filter_le _ _)
      simp only [hf, List.length_cons, List.any_cons, h, Bool.true_or,
        bne_iff_ne, ne_eq]
      exact Nat.ne_of_lt hlt
    · have h' : (x.card_name == k) = false := by
        simpa using h
      simp only [List.filter_cons, h', Bool.not_false, if_pos trivial,
        List.length_cons, List.any_cons, Bool.false_or]
      rw [← ih]
      simp [bne]

/-- C9: `remove_card` returns true exactly when the key was present, the key
no longer exists afterwards, and removing an absent key leaves the whole store
state unchanged (no record added, removed or modified). -/
theorem remove_card_spec (db : CardDatabase) (k : String) :
    (db.remove_card k).2 = db.card_exists k ∧
    ((db.remove_card k).1).card_exists k = false ∧
    (db.card_exists k = false → (db.remove_card k).1 = db) := by
  refine ⟨remove_ret_eq_any db.rows k, ?_, ?_⟩
  · show (db.rows.filter (fun r => !(r.card_name == k))).any
      (fun r => r.card_name == k) = false
    rw [List.any_eq_false]
    intro x hx
    have hmem := (List.mem_filter.mp hx).2
    simpa using hmem
  · intro h
    have hall := List.any_eq_false.mp h
    have hfilter : db.rows.filter (fun r => !(r.card_name == k)) = db.rows := by
      apply List.filter_eq_self.mpr
      intro a ha
      simpa using hall a ha
    show ({ db with
      rows := db.rows.filter (fun r => !(r.card_name == k)) } : CardDatabase) = db
    rw [hfilter]

/-- Concrete one-record store used by the C9 witness. -/
def c9db : CardDatabase :=
  (emptyDb.add_card "Black Lotus" "Black_Lotus.jpg" none none none none
    "u-bl").1

/-- C9 witness: on the concrete store holding only "Black Lotus", removing the
absent key "Island" reports false and changes nothing, and removing the
present key "Black Lotus" reports true with the key gone afterwards. -/
theorem remove_card_spec_witness :
    ((c9db.remove_card "Island").2 = false ∧
      (c9db.remove_card "Island").1 = c9db) ∧
    ((c9db.remove_card "Black Lotus").2 = true ∧
      ((c9db.remove_card "Black Lotus").1).card_exists "Black Lotus"
        = false) := by
  refine ⟨⟨?_, (remove_card_spec c9db "Island").2.2 (by decide)⟩, ?_, ?_⟩
  · rw [(remove_card_spec c9db "Island").1]
    decide
  · rw [(remove_card_spec c9db "Black Lotus").1]
    decide
  · exact (remove_card_spec c9db "Black Lotus").2.1

/-! ### Claim C10 -/

/-- Store holding one record for "Card One" with the explicit id "id-1". -/
def c10db1 : CardDatabase :=
  (emptyDb.add_card "Card One" "f1.jpg" none none none (some "id-1") "g1").1

/-- Store after putting "Card Two" with the same explicit id "id-1". -/
def c10db2 : CardDatabase :=
  (c10db1.add_card "Card Two" "f2.jpg" none none none (some "id-1") "g2").1

/-- C10: `add_card` with an explicit `file_id` that already belongs to a
record under a different logical key silently deletes that other record —
after the second put the store has a record for "Card Two" carrying "id-1"
and no record for "Card One" at all (`INSERT OR REPLACE` removed it to
satisfy `file_id TEXT UNIQUE`). -/
theorem add_card_explicit_id_steals_record :
    c10db1.card_exists "Card One" = true ∧
    c10db1.infoFileId "Card One" = some "id-1" ∧
    c10db2.card_exists "Card Two" = true ∧
    c10db2.infoFileId "Card Two" = some "id-1" ∧
    c10db2.card_exists "Card One" = false := by
  refine ⟨by decide, by decide, by decide, by decide, by decide⟩

/-! ### Claim C5 -/

/-- Property of C5: the assigned `file_id`s of the rows are pairwise
distinct. -/
def extIdUnique (db : CardDatabase) : Prop :=
  db.rows.Pairwise (fun r s => r.file_id ≠ s.file_id)

/-- Tokens already present in the store; a fresh `uuid.uuid4()` is modelled as
a token outside this list. -/
def assignedIds (db : CardDatabase) : List String :=
  db.rows.filterMap (fun r => r.file_id)

/-- Store states reachable from a fresh database through `add_card` and
`remove_card`, with generated tokens (used when no explicit `file_id` is
passed) required to be fresh. -/
inductive Reachable : CardDatabase → Prop where
  | empty : Reachable emptyDb
  | add : ∀ (db : CardDatabase) (cn fn : String) (ci sc iu : Option String)
      (fid : Option String) (gen : String), Reachable db →
      (fid = none → gen ∉ assignedIds db) →
      Reachable ((db.add_card cn fn ci sc iu fid gen).1)
  | remove : ∀ (db : CardDatabase) (cn : String), Reachable db →
      Reachable ((db.remove_card cn).1)

/-- Helper: the replace step of `INSERT OR REPLACE` drops every row sharing
the inserted `file_id`, so inserting a row with an assigned `file_id`
preserves pairwise distinctness. -/
theorem extIdUnique_insertOrReplace {db : CardDatabase} {r : Row}
    (hdb : extIdUnique db) {b : String} (hr : r.file_id = some b) :
    extIdUnique (db.insertOrReplace r) := by
  unfold extIdUnique CardDatabase.insertOrReplace
  rw [List.pairwise_append]
  refine ⟨List.Pairwise.sublist (List.filter_sublist _) hdb,
    List.pairwise_singleton _ _, ?_⟩
  intro x hx y hy
  rw [List.mem_singleton] at hy
  subst hy
  have hc := (List.mem_filter.mp hx).2
  rw [Bool.not_eq_true'] at hc
  rw [hr]
  exact fileId_ne_of_not_conflicts hc hr

theorem extIdUnique_add {db : CardDatabase} (h : extIdUnique db)
    (cn fn : String) (ci sc iu : Option String) (fid : Option String)
    (gen : String) : extIdUnique ((db.add_card cn fn ci sc iu fid gen).1) :=
  extIdUnique_insertOrReplace h rfl

theorem extIdUnique_remove {db : CardDatabase} (h : extIdUnique db)
    (cn : String) : extIdUnique ((db.remove_card cn).1) :=
  List.Pairwise.sublist (List.filter_sublist _) h

/-- C5: `external_id` uniqueness is an invariant of every reachable store
state — for all distinct records the `file_id`s differ. -/
theorem reachable_extIdUnique (db : CardDatabase) (h : Reachable db) :
    extIdUnique db := by
  induction h with
  | empty => exact List.Pairwise.nil
  | add db cn fn ci sc iu fid gen hr hfresh ih =>
    exact extIdUnique_add ih cn fn ci sc iu fid gen
  | remove db cn hr ih => exact extIdUnique_remove ih cn

/-- Two-record store reached by two keyless puts, for the C5 witness. -/
def c5db : CardDatabase :=
  ((emptyDb.add_card "Black Lotus" "bl.jpg" none none none none
    "u1").1.add_card "Counterspell" "cs.jpg" none none none none "u2").1

/-- C5 witness: the two-record store is reachable (its generated tokens are
fresh) and its `file_id`s are pairwise distinct. -/
theorem reachable_extIdUnique_witness : extIdUnique c5db := by
  have h1 : Reachable (emptyDb.add_card "Black Lotus" "bl.jpg" none none none
      none "u1").1 :=
    Reachable.add emptyDb "Black Lotus" "bl.jpg" none none none none "u1"
      Reachable.empty (fun _ => by decide)
  have h2 : Reachable c5db :=
    Reachable.add _ "Counterspell" "cs.jpg" none none none none "u2" h1
      (fun _ => by decide)
  exact reachable_extIdUnique c5db h2

/-! ### String helpers shared by the file manager and coordinator models -/

/-- Replacement over character lists with explicit fuel.  The fuel is
instantiated with the length of the subject, which suffices because every
step consumes at least one character. -/
def replaceFuel (pat rep : List Char) : Nat → List Char → List Char
  | _, [] => []
  | 0, s => s
  | fuel + 1, c :: rest =>
    if pat.isPrefixOf (c :: rest) then
      rep ++ replaceFuel pat rep fuel ((c :: rest).drop pat.length)
    else
      c :: replaceFuel pat rep fuel rest

/-- Python `str.replace`: replace all non-overlapping occurrences, left to
right.  The empty pattern never occurs in this development and is mapped to
the identity. -/
def pyReplace (s pat rep : String) : String :=
  if pat.toList.isEmpty then s
  else String.mk (replaceFuel pat.toList rep.toList s.toList.length s.toList)

/-- ASCII upper-casing of one character (the set codes upper-cased here are
ASCII). -/
def upChar (c : Char) : Char :=
  if 97 ≤ c.toNat ∧ c.toNat ≤ 122 then Char.ofNat (c.toNat - 32) else c

/-- ASCII upper-casing of a string, Python `str.upper` on set codes. -/
def upString (s : String) : String := String.mk (s.toList.map upChar)

/-! ### Claim C8 — file manager validation -/

/-- Hexadecimal digit test for the UUID well-formedness check. -/
def hexChar (c : Char) : Bool :=
  (48 ≤ c.toNat && c.toNat ≤ 57) || (97 ≤ c.toNat && c.toNat ≤ 102) ||
    (65 ≤ c.toNat && c.toNat ≤ 70)

/-- Test for the curly-brace characters CPython strips from a UUID string. -/
def braceChar (c : Char) : Bool := c.toNat == 123 || c.toNat == 125

/-- Acceptance of CPython `uuid.UUID(s)` as used by
`FileManager.validate_resource_access` (file_manager.py line 171): remove the
`urn:` and `uuid:` markers, strip surrounding braces, drop hyphens, and
require exactly 32 hexadecimal digits.  (The extra leniency of `int(h, 16)`
for embedded signs and underscores is not modelled; no identifier in this
development exercises it.) -/
def isValidUUID (s : String) : Bool :=
  let h := pyReplace (pyReplace s "urn:" "") "uuid:" ""
  let cs := (h.toList.dropWhile braceChar).reverse.dropWhile braceChar
  let d := pyReplace (String.mk cs.reverse) "-" ""
  d.toList.length == 32 && d.toList.all hexChar

/-- `FileManager.get_file_path` (file_manager.py lines 30-46): database
lookup by `file_id` followed by the on-disk existence check, the file system
abstracted as the predicate `onDisk`. -/
def get_file_path (db : CardDatabase) (onDisk : String → Bool)
    (fid : String) : Option String :=
  match db.get_file_path_by_id fid with
  | some p => if onDisk p then some p else none
  | none => none

/-- `FileManager.validate_resource_access` (lines 158-176): reject a
syntactically malformed `file_id` before any lookup, otherwise consult the
store.  The second component instruments the control flow with the number of
store lookups performed. -/
def validate_resource_access (db : CardDatabase) (onDisk : String → Bool)
    (fid : String) : Bool × Nat :=
  if isValidUUID fid then ((get_file_path db onDisk fid).isSome, 1)
  else (false, 0)

/-- C8: for every syntactically invalid external identifier (one that does
not parse as a UUID) the validation returns the denied result without
performing any store lookup. -/
theorem validate_resource_access_invalid_uuid (db : CardDatabase)
    (onDisk : String → Bool) (fid : String)
    (h : isValidUUID fid = false) :
    validate_resource_access db onDisk fid = (false, 0) := by
  unfold validate_resource_access
  rw [h]
  simp

/-- Always-true stand-in for the on-disk check, for the C8 witness. -/
def alwaysOnDisk : String → Bool := fun _ => true

/-- C8 witness: the malformed identifier "not-a-uuid" is rejected by the
validation with zero store lookups. -/
theorem validate_resource_access_invalid_uuid_witness :
    validate_resource_access emptyDb alwaysOnDisk "not-a-uuid"
      = (false, 0) :=
  validate_resource_access_invalid_uuid emptyDb alwaysOnDisk "not-a-uuid"
    (by decide)

/-! ### Claim C3 — schema migration of `_init_db` -/

/-- Column entry of `PRAGMA table_info`: the name (index 1 of the tuple) and
the `pk` flag (index 5 — the entry `_init_db` reads as `col[5]`). -/
structure ColumnInfo where
  colName : String
  pk : Nat
deriving Repr, DecidableEq

/-- Table schema: the `table_info` columns plus whether the table carries the
narrow `UNIQUE(card_name)` table constraint — which `PRAGMA table_info` does
not surface in any of its columns. -/
structure TableSchema where
  cols : List ColumnInfo
  uniqueCardName : Bool
deriving Repr, DecidableEq

/-- Schema of `downloaded_cards` exactly as this repository's own
CREATE TABLE statement makes it — which is also the legacy narrow-unique
variant the migration is meant to detect: `id` is the only primary-key
column and `card_name` carries the table-level UNIQUE constraint. -/
def legacySchema : TableSchema :=
  { cols := [⟨"id", 1⟩, ⟨"card_name", 0⟩, ⟨"filename", 0⟩,
      ⟨"download_date", 0⟩, ⟨"card_id", 0⟩, ⟨"set_code", 0⟩,
      ⟨"image_url", 0⟩, ⟨"file_id", 0⟩],
    uniqueCardName := true }

/-- Detection loop of `_init_db` (db_manager.py lines 52-59) as written:
scan the `table_info` rows for one named `card_name` whose `col[5]` — the
`pk` flag — equals 1. -/
def hasUniqueCheck (cols : List ColumnInfo) : Bool :=
  cols.any (fun c => c.colName == "card_name" && c.pk == 1)

/-- Schema effect of `_init_db` (lines 35-106): run the copy-then-swap
migration when the detection fires (the rebuilt table drops the narrow
UNIQUE constraint), then add the `file_id` column when it is missing. -/
def initDbMigration (t : TableSchema) : TableSchema :=
  let t1 := if hasUniqueCheck t.cols then { t with uniqueCardName := false }
    else t
  if t1.cols.any (fun c => c.colName == "file_id") then t1
  else { t1 with cols := t1.cols ++ [⟨"file_id", 0⟩] }

/-- C3 (code bug evidence): on a table with the legacy narrow-unique schema
the detection inspects the `pk` flag of `PRAGMA table_info`, which is 0 for
`card_name`, so `_init_db` never recognises the legacy schema: the migration
is a no-op that leaves the narrow `UNIQUE(card_name)` scope in place instead
of widening it. -/
theorem init_db_misses_legacy_unique_schema :
    hasUniqueCheck legacySchema.cols = false ∧
    (initDbMigration legacySchema).uniqueCardName = true ∧
    initDbMigration legacySchema = legacySchema := by
  refine ⟨by decide, by decide, by decide⟩

/-! ### Claim C6 — batch download coordinator -/

/-- Outcome of the remote work for one card of `download_card_images`
(scryfall_card_download.py lines 8-76): either the card lookup and the image
download both succeed — `ok` carries the extension taken from the image URL —
or an `httpx.HTTPError` (or other exception) was raised, or the card JSON had
no large image URL. -/
inductive FetchOutcome where
  | ok (ext : String)
  | httpError
  | noImage
deriving Repr, DecidableEq

/-- Filename sanitisation of the source: spaces to underscores, `//` to
underscore. -/
def sanitizeName (n : String) : String :=
  pyReplace (pyReplace n " " "_") "//" "_"

/-- Existing-file check of the source (line 26): some file in the output
folder starts with the sanitised card name followed by a dot. -/
def hasExistingFile (files : List String) (n : String) : Bool :=
  files.any (fun f => (sanitizeName n ++ ".").toList.isPrefixOf f.toList)

/-- Output-folder contents and counters while a batch runs. -/
structure DlState where
  files : List String
  downloaded : Nat
  skipped : Nat
  errors : Nat
deriving Repr, DecidableEq

/-- Body of the per-card loop of `download_card_images`: skip when a file for
the card already exists (unless forced), otherwise fetch; a success writes
the image file and counts as downloaded, either failure only bumps the error
counter — the loop always continues with the next card. -/
def processCard (fetch : String → FetchOutcome) (force : Bool)
    (st : DlState) (n : String) : DlState :=
  if hasExistingFile st.files n && !force then
    { st with skipped := st.skipped + 1 }
  else
    match fetch n with
    | .ok ext =>
      { st with
        files := st.files ++ [sanitizeName n ++ ext]
        downloaded := st.downloaded + 1 }
    | .httpError => { st with errors := st.errors + 1 }
    | .noImage => { st with errors := st.errors + 1 }

/-- `download_card_images`: fold the per-card step over the batch, starting
from the given folder contents and zeroed counters. -/
def download_card_images (fetch : String → FetchOutcome) (force : Bool)
    (files0 : List String) (card_names : List String) : DlState :=
  card_names.foldl (processCard fetch force)
    { files := files0, downloaded := 0, skipped := 0, errors := 0 }

/-- Predicate picking the per-item failures: HTTP error or missing image
URL. -/
def fetchFails (fetch : String → FetchOutcome) (n : String) : Bool :=
  match fetch n with
  | .ok _ => false
  | .httpError => true
  | .noImage => true

/-- Error bump applied by both failure branches of the loop body. -/
def bumpError (st : DlState) : DlState := { st with errors := st.errors + 1 }

/-- Helper: a step on a card whose fetch succeeds keeations the error counter
and moves exactly one card into downloaded or skipped. -/
theorem processCard_ok_fetch (fetch : String → FetchOutcome) (force : Bool)
    (st : DlState) (n : String) (h : fetchFails fetch n = false) :
    (processCard fetch force st n).errors = st.errors ∧
    (processCard fetch force st n).downloaded +
      (processCard fetch force st n).skipped
      = st.downloaded + st.skipped + 1 := by
  cases hcase : fetch n with
  | ok ext =>
    unfold processCard
    rw [hcase]
    by_cases hs : (hasExistingFile st.files n && !force) = true
    · rw [hs]
      exact ⟨rfl, rfl⟩
    · rw [Bool.not_eq_true] at hs
      rw [hs]
      refine ⟨rfl, ?_⟩
      show st.downloaded + 1 + st.skipped = st.downloaded + st.skipped + 1
      omega
  | httpError =>
    unfold fetchFails at h
    rw [hcase] at h
    simp at h
  | noImage =>
    unfold fetchFails at h
    rw [hcase] at h
    simp at h

/-- Helper: a run over cards whose fetches all succeed keeps the error
counter and moves every card into downloaded or skipped. -/
theorem run_no_failures (fetch : String → FetchOutcome) (force : Bool)
    (names : List String)
    (h : ∀ n ∈ names, fetchFails fetch n = false) (st : DlState) :
    (names.foldl (processCard fetch force) st).errors = st.errors ∧
    (names.foldl (processCard fetch force) st).downloaded +
      (names.foldl (processCard fetch force) st).skipped
      = st.downloaded + st.skipped + names.length := by
  induction names generalizing st with
  | nil => simp
  | cons x xs ih =>
    have hx := h x (List.mem_cons_self x xs)
    have hxs : ∀ n ∈ xs, fetchFails fetch n = false := fun n hn =>
      h n (List.mem_cons_of_mem x hn)
    simp only [List.foldl_cons, List.length_cons]
    obtain ⟨he, hc⟩ := ih hxs (processCard fetch force st x)
    obtain ⟨pe, pc⟩ := processCard_ok_fetch fetch force st x hx
    refine ⟨he.trans pe, ?_⟩
    rw [hc, pc]
    omega

/-- Helper: a step on a non-skipped card whose fetch fails only bumps the
error counter. -/
theorem processCard_failure (fetch : String → FetchOutcome) (force : Bool)
    (st : DlState) (n : String) (hf : fetchFails fetch n = true)
    (hs : (hasExistingFile st.files n && !force) = false) :
    processCard fetch force st n = bumpError st := by
  cases hcase : fetch n with
  | ok ext =>
    unfold fetchFails at hf
    rw [hcase] at hf
    simp at hf
  | httpError =>
    unfold processCard
    rw [hs, hcase]
    rfl
  | noImage =>
    unfold processCard
    rw [hs, hcase]
    rfl

/-- C6: in a batch in which exactly one task's remote fetch fails — every
task before and after it succeeds, the failing one is reached and not skipped
— the coordinator continues through all subsequent tasks and the final
summary reports exactly one error, every remaining task landing in
downloaded or skipped, and the three counters adding up to the batch
size. -/
theorem download_batch_one_failure_counts (fetch : String → FetchOutcome)
    (force : Bool) (files0 : List String) (pre post : List String)
    (bad : String)
    (hpre : ∀ n ∈ pre, fetchFails fetch n = false)
    (hpost : ∀ n ∈ post, fetchFails fetch n = false)
    (hbad : fetchFails fetch bad = true)
    (hnoskip : (hasExistingFile
      (download_card_images fetch force files0 pre).files bad && !force)
        = false) :
    (download_card_images fetch force files0 (pre ++ bad :: post)).errors
      = 1 ∧
    (download_card_images fetch force files0 (pre ++ bad :: post)).downloaded
      + (download_card_images fetch force files0 (pre ++ bad :: post)).skipped
      = pre.length + post.length ∧
    (download_card_images fetch force files0 (pre ++ bad :: post)).downloaded
      + (download_card_images fetch force files0 (pre ++ bad :: post)).skipped
      + (download_card_images fetch force files0 (pre ++ bad :: post)).errors
      = (pre ++ bad :: post).length := by
  obtain ⟨he1, hc1⟩ := run_no_failures fetch force pre hpre
    { files := files0, downloaded := 0, skipped := 0, errors := 0 }
  have hstep : processCard fetch force
      (download_card_images fetch force files0 pre) bad
      = bumpError (download_card_images fetch force files0 pre) :=
    processCard_failure fetch force _ bad hbad hnoskip
  obtain ⟨he2, hc2⟩ := run_no_failures fetch force post hpost
    (bumpError (download_card_images fetch force files0 pre))
  have hrw : download_card_images fetch force files0 (pre ++ bad :: post)
      = post.foldl (processCard fetch force)
          (bumpError (download_card_images fetch force files0 pre)) := by
    unfold download_card_images
    rw [List.foldl_append, List.foldl_cons]
    unfold download_card_images at hstep
    rw [hstep]
  have hepre : (download_card_images fetch force files0 pre).errors = 0 := by
    unfold download_card_images
    rw [he1]
  have hcpre : (download_card_images fetch force files0 pre).downloaded +
      (download_card_images fetch force files0 pre).skipped
      = pre.length := by
    unfold download_card_images
    rw [hc1]
    simp
  rw [hrw]
  have e2 : (post.foldl (processCard fetch force)
      (bumpError (download_card_images fetch force files0 pre))).errors
      = 1 := by
    rw [he2]
    show (download_card_images fetch force files0 pre).errors + 1 = 1
    rw [hepre]
  have c2 : (post.foldl (processCard fetch force)
      (bumpError (download_card_images fetch force files0 pre))).downloaded +
      (post.foldl (processCard fetch force)
        (bumpError (download_card_images fetch force files0 pre))).skipped
      = pre.length + post.length := by
    rw [hc2]
    show (download_card_images fetch force files0 pre).downloaded +
      (download_card_images fetch force files0 pre).skipped + post.length
      = pre.length + post.length
    rw [hcpre]
  refine ⟨e2, c2, ?_⟩
  rw [c2, e2]
  simp only [List.length_append, List.length_cons]
  omega

/-- Concrete fetch oracle for the C6 witness: the lookup for "Counterspell"
fails with an HTTP error, every other card succeeds with a `.jpg` image. -/
def fetchW (n : String) : FetchOutcome :=
  if n == "Counterspell" then .httpError else .ok ".jpg"

/-- C6 witness: in the concrete batch [Black Lotus, Counterspell, Lightning
Bolt] where only the Counterspell lookup fails, the summary shows exactly one
error, the two other cards accounted for, and the counters summing to the
batch size. -/
theorem download_batch_one_failure_counts_witness :
    (download_card_images fetchW false []
      (["Black Lotus"] ++ "Counterspell" :: ["Lightning Bolt"])).errors
      = 1 ∧
    (download_card_images fetchW false []
      (["Black Lotus"] ++ "Counterspell" :: ["Lightning Bolt"])).downloaded
      + (download_card_images fetchW false []
        (["Black Lotus"] ++ "Counterspell" :: ["Lightning Bolt"])).skipped
      = (["Black Lotus"] : List String).length
        + (["Lightning Bolt"] : List String).length ∧
    (download_card_images fetchW false []
      (["Black Lotus"] ++ "Counterspell" :: ["Lightning Bolt"])).downloaded
      + (download_card_images fetchW false []
        (["Black Lotus"] ++ "Counterspell" :: ["Lightning Bolt"])).skipped
      + (download_card_images fetchW false []
        (["Black Lotus"] ++ "Counterspell" :: ["Lightning Bolt"])).errors
      = (["Black Lotus"] ++ "Counterspell" :: ["Lightning Bolt"]).length :=
  download_batch_one_failure_counts fetchW false [] ["Black Lotus"]
    ["Lightning Bolt"] "Counterspell" (by decide) (by decide) (by decide)
    (by decide)

/-! ### Claim C7 — search-result grouping -/

/-- Card search result as returned by the remote API, with the fields the
grouping and the test fixture use (`name`, `set`, `set_name`,
`collector_number`, `artist`, `id`). -/
structure Card where
  name : String
  set : String
  set_name : String
  collector_number : String
  artist : String
  id : String
deriving Repr, DecidableEq

/-- Annotated printing inside a group: the original card plus the computed
display name and the alternate-art flag. -/
structure AnnCard where
  card : Card
  display_name : String
  alt_art : Bool
deriving Repr, DecidableEq

/-- Modelled from the spec: `group_cards_by_name_and_art` is defined in
`scryfall_search.py`, which is not among the provided source files — only its
unit test (`test_search.py`) and its caller (`mcp/scryfall_server.py`) are.
Following spec §4.4: group results by exact `name`, preserving first-seen
order of groups and of items within a group; in a group with more than one
member every member is flagged as an alternate-art variant and receives a
display name combining the set name — together with the upper-cased set
code, which the unit test checks for — and the artist; a single-member group
keeps the plain card name as its display name. -/
def group_cards_by_name_and_art (cards : List Card) :
    List (String × List AnnCard) :=
  let names := cards.foldl
    (fun acc c => if acc.contains c.name then acc else acc ++ [c.name]) []
  names.map (fun n =>
    let grp := cards.filter (fun c => c.name == n)
    if grp.length > 1 then
      (n, grp.map (fun c =>
        { card := c
          display_name := c.name ++ " (" ++ c.set_name ++ " - "
            ++ upString c.set ++ ") by " ++ c.artist
          alt_art := true }))
    else
      (n, grp.map (fun c =>
        { card := c, display_name := c.name, alt_art := false })))

/-- Lightning Bolt, Magic 2010 printing, from the test fixture. -/
def lbM10 : Card :=
  { name := "Lightning Bolt", set := "m10", set_name := "Magic 2010",
    collector_number := "146", artist := "Christopher Moeller",
    id := "e3285e6b-3e79-4d7c-bf96-d920f973b122" }

/-- Lightning Bolt, Masters 25 printing, from the test fixture. -/
def lbA25 : Card :=
  { name := "Lightning Bolt", set := "a25", set_name := "Masters 25",
    collector_number := "141", artist := "Christopher Moeller",
    id := "f5d3a155-5c5d-4c5a-8a18-07a89a2c2cee" }

/-- Counterspell, Mercadian Masques printing, from the test fixture. -/
def csMmq : Card :=
  { name := "Counterspell", set := "mmq", set_name := "Mercadian Masques",
    collector_number := "69", artist := "Mark Zug",
    id := "c5de7c20-0a2c-4424-bf15-76a6e0a69aae" }

/-- Input of the C7 scenario: two Lightning Bolt printings then one
Counterspell. -/
def sampleCards : List Card := [lbM10, lbA25, csMmq]

/-- C7: on [LB(m10), LB(a25), CS(mmq)] the grouping yields exactly two groups
in first-seen order; the Lightning Bolt group has both printings in input
order, each flagged alternate-art with a display name combining set name and
artist, and those two display names are distinct; the Counterspell group has
one entry whose display name is plain "Counterspell". -/
theorem group_cards_sample_spec :
    group_cards_by_name_and_art sampleCards =
      [("Lightning Bolt",
        [{ card := lbM10,
           display_name :=
             "Lightning Bolt (Magic 2010 - M10) by Christopher Moeller",
           alt_art := true },
         { card := lbA25,
           display_name :=
             "Lightning Bolt (Masters 25 - A25) by Christopher Moeller",
           alt_art := true }]),
       ("Counterspell",
        [{ card := csMmq, display_name := "Counterspell",
           alt_art := false }])] ∧
    ("Lightning Bolt (Magic 2010 - M10) by Christopher Moeller" : String)
      ≠ "Lightning Bolt (Masters 25 - A25) by Christopher Moeller" := by
  refine ⟨by decide, by decide⟩
